import Mathlib

/-!
Verification of the bonsai-sdk TypeScript client (`src/index.ts`) against its
natural-language specification.

The client is a thin REST layer.  We embed it shallowly:

* The HTTP server is abstracted as an oracle `Net : Request → Response`
  giving the response to each request.  The axios promise layer is modelled
  on top of it: with the default `validateStatus` — `constructReqClient`
  configures only `timeout` and `headers`, so every call that does not pass
  `validateStatus: () => true` keeps the default — a non-2xx response makes
  the promise reject with an `AxiosError` carrying the response body
  (`axiosDefault`), before any of the caller's own status checks run; the
  calls that do pass `validateStatus: () => true` see every status
  (`axiosValidateAll`).
* Response bodies are modelled as already-decoded typed payloads
  (`RespData`); in the TypeScript source the unchecked casts
  (`const x : T = res.data`) do no validation, so a body of the wrong shape
  is modelled by the artificial `Err.decodeMismatch` outcome, which never
  fires under the hypotheses of the theorems below.  `res.data.json()` in
  `getImageUploadUrl` is a method call on the already-decoded axios body,
  which has no `.json` method; it is modelled as the TypeError it raises.
* Every client method becomes a pure function returning the result (success
  value or thrown error) together with the list of HTTP requests it issued,
  in order.
* JavaScript string and number primitives used by the source
  (`String.prototype.match(/.{1,2}/g)`, `parseInt`, `Uint8Array` coercion,
  `endsWith`, `slice(0,-1)`, truthiness) are modelled explicitly from the
  ECMAScript semantics.
* `InternalServerError` interpolates the response body into its message
  string; the model carries the body value itself, which is what the spec's
  "carrying the response body" refers to.
-/

namespace Bonsai

/-- HTTP header key for the API key (src/index.ts line 6). -/
def API_KEY_HEADER : String := "x-api-key"

/-- HTTP header for the risc0 version string (line 8). -/
def VERSION_HEADER : String := "x-risc0-version"

/-- Environment variable name for the API url (line 10). -/
def API_URL_ENVVAR : String := "BONSAI_API_URL"

/-- Environment variable name for the API key (line 12). -/
def API_KEY_ENVVAR : String := "BONSAI_API_KEY"

/-- Environment variable name for the timeout (line 14). -/
def TIMEOUT_ENVVAR : String := "BONSAI_TIMEOUT_MS"

/-- Default timeout in ms if env var is not set (line 16). -/
def DEFAULT_TIMEOUT : Int := 30000

/-! ## JavaScript primitives -/

/-- Code points that `.` in a JS regex refuses to match (LineTerminator):
LF, CR, LS, PS. -/
def isLineTerm (c : Char) : Bool :=
  c.toNat == 10 || c.toNat == 13 || c.toNat == 8232 || c.toNat == 8233

/-- WhiteSpace / LineTerminator code points skipped by `parseInt`
(TAB LF VT FF CR SP NBSP BOM; further Unicode spaces are not needed here). -/
def jsWhitespaceChar (c : Char) : Bool :=
  c.toNat == 9 || c.toNat == 10 || c.toNat == 11 || c.toNat == 12 ||
  c.toNat == 13 || c.toNat == 32 || c.toNat == 160 || c.toNat == 65279

/-- Value of a digit character under the given radix (`0-9`, `a-z`, `A-Z`),
as used by `parseInt`. -/
def digitVal (radix : Nat) (c : Char) : Option Nat :=
  let n := c.toNat
  if 48 ≤ n ∧ n ≤ 57 ∧ n - 48 < radix then some (n - 48)
  else if 97 ≤ n ∧ n ≤ 122 ∧ n - 87 < radix then some (n - 87)
  else if 65 ≤ n ∧ n ≤ 90 ∧ n - 55 < radix then some (n - 55)
  else none

/-- ECMAScript `parseInt(s, radix)` for radix 10 and 16: skip whitespace,
optional sign, optional `0x`/`0X` prefix when the radix is 16, then the
maximal prefix of digits; `none` models `NaN`. -/
def parseIntJS (radix : Nat) (s : String) : Option Int :=
  let l0 := s.data.dropWhile jsWhitespaceChar
  let sign : Int := match l0 with
    | c :: _ => if c.toNat == 45 then -1 else 1
    | [] => 1
  let l1 := match l0 with
    | c :: t => if c.toNat == 45 || c.toNat == 43 then t else l0
    | [] => l0
  let l2 := if radix = 16 then
      match l1 with
      | a :: b :: t => if a.toNat == 48 && (b.toNat == 120 || b.toNat == 88) then t else l1
      | _ => l1
    else l1
  let ds := l2.takeWhile (fun c => (digitVal radix c).isSome)
  if ds.isEmpty then none
  else some (sign * Int.ofNat (ds.foldl (fun a c => a * radix + (digitVal radix c).getD 0) 0))

/-- `Uint8Array.from` element conversion (ToUint8): `NaN` becomes `0`,
integers are taken modulo 2^8. -/
def toUint8 (v : Option Int) : Nat :=
  match v with
  | none => 0
  | some n => (n % 256).toNat

/-- The match list of the JS global regex `/.{1,2}/g` over a character list:
greedily take two consecutive non-LineTerminator characters, else one,
skipping characters `.` cannot match. -/
def regexChunks : List Char → List (List Char)
  | [] => []
  | c :: rest =>
    if isLineTerm c then regexChunks rest
    else match rest with
      | [] => [[c]]
      | d :: rest2 =>
        if isLineTerm d then [c] :: regexChunks rest2
        else [c, d] :: regexChunks rest2

/-- The local helper of `uploadInput` (lines 314-315):
`Uint8Array.from(hexString.match(/.{1,2}/g)!.map(b => parseInt(b, 16)))`.
`String.prototype.match` returns `null` (here: `none`) when there is no
match, in which case the non-null assertion plus `.map` throws a TypeError. -/
def fromHexString (s : String) : Option (List Nat) :=
  match regexChunks s.data with
  | [] => none
  | chunks => some (chunks.map (fun ch => toUint8 (parseIntJS 16 (String.mk ch))))

/-! ## Environment and configuration -/

/-- A snapshot of `process.env`: `none` models an unset (undefined) variable. -/
def Env : Type := String → Option String

/-- `getURL` (lines 454-473): probe the framework prefixes in source order,
return the first set variant, otherwise throw
`Error("bonsai sdk env variables are not set!")`. -/
def getURL (env : Env) : Except String String :=
  match env ("REACT_APP_" ++ API_URL_ENVVAR) with
  | some v => .ok v
  | none =>
  match env ("NEXT_PUBLIC_" ++ API_URL_ENVVAR) with
  | some v => .ok v
  | none =>
  match env ("GATSBY_" ++ API_URL_ENVVAR) with
  | some v => .ok v
  | none =>
  match env ("VUE_APP_" ++ API_URL_ENVVAR) with
  | some v => .ok v
  | none =>
  match env ("VITE_" ++ API_URL_ENVVAR) with
  | some v => .ok v
  | none =>
  match env ("PUBLIC_" ++ API_URL_ENVVAR) with
  | some v => .ok v
  | none =>
  match env ("NUXT_ENV_" ++ API_URL_ENVVAR) with
  | some v => .ok v
  | none =>
  match env API_URL_ENVVAR with
  | some v => .ok v
  | none => .error "bonsai sdk env variables are not set!"

/-- `getKey` (lines 475-494): identical probing for the API key variable. -/
def getKey (env : Env) : Except String String :=
  match env ("REACT_APP_" ++ API_KEY_ENVVAR) with
  | some v => .ok v
  | none =>
  match env ("NEXT_PUBLIC_" ++ API_KEY_ENVVAR) with
  | some v => .ok v
  | none =>
  match env ("GATSBY_" ++ API_KEY_ENVVAR) with
  | some v => .ok v
  | none =>
  match env ("VUE_APP_" ++ API_KEY_ENVVAR) with
  | some v => .ok v
  | none =>
  match env ("VITE_" ++ API_KEY_ENVVAR) with
  | some v => .ok v
  | none =>
  match env ("PUBLIC_" ++ API_KEY_ENVVAR) with
  | some v => .ok v
  | none =>
  match env ("NUXT_ENV_" ++ API_KEY_ENVVAR) with
  | some v => .ok v
  | none =>
  match env API_KEY_ENVVAR with
  | some v => .ok v
  | none => .error "bonsai sdk env variables are not set!"

/-- The timeout computation of `constructReqClient` (lines 501-510):
`envTimeout === "none"` clears the timeout; a truthy value is parsed with
`parseInt(·, 10)` falling back to the default on `NaN`; unset (or the falsy
empty string) yields the default. `none` models `undefined` (no timeout). -/
def resolveTimeout (envTimeout : Option String) : Option Int :=
  if envTimeout = some "none" then none
  else match envTimeout with
    | some s =>
      if s = "" then some DEFAULT_TIMEOUT
      else match parseIntJS 10 s with
        | none => some DEFAULT_TIMEOUT
        | some n => some n
    | none => some DEFAULT_TIMEOUT

/-- The axios instance configuration produced by `constructReqClient`
(lines 496-516): two fixed headers and the resolved timeout. -/
structure ReqClientCfg where
  apiKey : String
  version : String
  timeout : Option Int
deriving DecidableEq, Repr

/-- `constructReqClient` (lines 496-516). -/
def constructReqClient (env : Env) (apiKey version : String) : ReqClientCfg :=
  ⟨apiKey, version, resolveTimeout (env TIMEOUT_ENVVAR)⟩

/-- JS `s.endsWith(t)`. -/
def jsEndsWith (s t : String) : Bool := decide (t.data <:+ s.data)

/-- JS `s.slice(0, -1)`: drop the last character. -/
def jsSliceDropLast (s : String) : String := String.mk s.data.dropLast

/-- The URL normalization inlined in both constructors (lines 231 and 242):
`url.endsWith("/") ? url.slice(0, -1) : url`. -/
def normalizeUrl (url : String) : String :=
  if jsEndsWith url "/" then jsSliceDropLast url else url

/-! ## Request / response model -/

/-- HTTP method of an issued request. -/
inductive Method
  | get
  | put
  | post
  | delete
deriving DecidableEq, Repr

/-- Body of the POST to `/sessions/create` (lines 378-384). -/
structure SessionCreateReq where
  img : String
  input : String
  assumptions : List String
  execute_only : Bool
  exec_cycle_limit : Option Int
deriving DecidableEq, Repr

/-- Request bodies the client sends. -/
inductive ReqBody
  | empty
  | bytes (b : List Nat)
  | sessionCreate (r : SessionCreateReq)
  | snarkCreate (session_id : String)
deriving DecidableEq, Repr

/-- One HTTP request as issued by the client. -/
structure Request where
  method : Method
  url : String
  body : ReqBody
deriving DecidableEq, Repr

/-- `UploadRes` (lines 103-108): presigned URL plus generated UUID. -/
structure UploadRes where
  url : String
  uuid : String
deriving DecidableEq, Repr

/-- `ImgUploadRes` (lines 98-101). -/
structure ImgUploadRes where
  url : String
deriving DecidableEq, Repr

/-- `ReceiptDownload` (lines 47-50). -/
structure ReceiptDownloadRes where
  url : String
deriving DecidableEq, Repr

/-- `CreateSessRes` (lines 88-91). -/
structure CreateSessRes where
  uuid : String
deriving DecidableEq, Repr

/-- `SessionStats` (lines 34-41). -/
structure SessionStats where
  segments : Int
  total_cycles : Int
  cycles : Int
deriving DecidableEq, Repr

/-- `SessionStatusRes` (lines 19-32): status snapshot returned as-is. -/
structure SessionStatusRes where
  status : String
  receipt_url : Option String
  error_msg : Option String
  state : Option String
  elapsed_time : Option Int
  stats : Option SessionStats
deriving DecidableEq, Repr

/-- `SnarkStatusRes` (lines 116-130). -/
structure SnarkStatusRes where
  status : String
  output : Option String
  error_msg : Option String
deriving DecidableEq, Repr

/-- Decoded response body delivered by the transport oracle. -/
inductive RespData
  | empty
  | upload (u : UploadRes)
  | imgUpload (u : ImgUploadRes)
  | receiptLoc (r : ReceiptDownloadRes)
  | created (r : CreateSessRes)
  | sessStatus (s : SessionStatusRes)
  | snarkStatus (s : SnarkStatusRes)
  | bytes (b : List Nat)
  | text (t : String)
deriving DecidableEq, Repr

/-- An HTTP response: status code plus decoded body. -/
structure Response where
  status : Nat
  data : RespData
deriving DecidableEq, Repr

/-- The transport oracle standing for the axios instance. -/
def Net : Type := Request → Response

/-- Errors thrown by the client. `sdkErr` is `class SdkErr`, `serverError`
is `InternalServerError` (carrying the response body that the TS code
interpolates into the message), `axiosError` is an uncaught `AxiosError`
rejection from the default `validateStatus` (carrying `error.response.data`),
`jsError` is a plain `Error` raised by the code itself, `typeError` is a
runtime TypeError (null regex-match dereference, or calling `.json()` on an
axios body), and `decodeMismatch` is the model artifact described in the
header comment. -/
inductive Err
  | sdkErr (msg : String)
  | serverError (body : RespData)
  | axiosError (body : RespData)
  | jsError (msg : String)
  | typeError
  | decodeMismatch
deriving DecidableEq, Repr

def getReq (url : String) : Request := ⟨.get, url, .empty⟩

def putReq (url : String) (b : List Nat) : Request := ⟨.put, url, .bytes b⟩

/-- An axios request issued with the default `validateStatus`: a non-2xx
status makes the promise reject with an `AxiosError` whose
`error.response.data` is the response body; a 2xx response is delivered to
the caller. -/
def axiosDefault (net : Net) (req : Request) : Except RespData Response :=
  let res := net req
  if res.status < 200 ∨ 300 ≤ res.status then .error res.data
  else .ok res

/-- An axios request issued with `validateStatus: () => true`: every
response is delivered to the caller. -/
def axiosValidateAll (net : Net) (req : Request) : Response := net req

/-! ## Client and handle types -/

/-- `class Client` (lines 214-221): base URL plus the configured instance. -/
structure Client where
  url : String
  client : ReqClientCfg
deriving DecidableEq, Repr

/-- `class SessionId` (lines 132-137). -/
structure SessionId where
  uuid : String
deriving DecidableEq, Repr

/-- `class SnarkId` (lines 190-195). -/
structure SnarkId where
  uuid : String
deriving DecidableEq, Repr

/-- `Client.fromParts` (lines 223-233).  `constructReqClient` cannot throw in
the model, so the `SdkErr("Failed to construct HTTP client")` wrapper path is
unreachable and the constructor is total. -/
def Client.fromParts (env : Env) (url key risc0Version : String) : Client :=
  ⟨normalizeUrl url, constructReqClient env key risc0Version⟩

/-- `Client.fromEnv` (lines 235-253).  Note the order of events: `getURL` /
`getKey` may throw their own plain `Error` before the `!apiUrl` / `!apiKey`
falsiness checks run; the latter can only fire on an empty-string value. -/
def Client.fromEnv (env : Env) (risc0Version : String) : Except Err Client :=
  match getURL env with
  | .error m => .error (.jsError m)
  | .ok apiUrl =>
    if apiUrl = "" then .error (.sdkErr "Missing API URL")
    else
      let normalizedUrl := normalizeUrl apiUrl
      match getKey env with
      | .error m => .error (.jsError m)
      | .ok apiKey =>
        if apiKey = "" then .error (.sdkErr "Missing API Key")
        else .ok ⟨normalizedUrl, constructReqClient env apiKey risc0Version⟩

/-! ## Client operations -/

/-- `ImageExistsOpt` (lines 43-45). -/
inductive ImageExistsOpt
  | Exists
  | New (data : ImgUploadRes)
deriving DecidableEq, Repr

/-- `SessionId.status` (lines 139-151): the GET uses the default
`validateStatus`, so a non-2xx response rejects with an uncaught
`AxiosError` before the `!(res.status === 200)` check runs; that check can
therefore only throw `InternalServerError` for 2xx statuses other than 200;
on 200 the body is returned as-is by an unchecked cast. -/
def SessionId.status (s : SessionId) (c : Client) (net : Net) :
    Except Err SessionStatusRes × List Request :=
  let req := getReq (c.url ++ "/sessions/status/" ++ s.uuid)
  match axiosDefault net req with
  | .error d => (.error (.axiosError d), [req])
  | .ok res =>
    if res.status ≠ 200 then (.error (.serverError res.data), [req])
    else match res.data with
      | .sessStatus j => (.ok j, [req])
      | _ => (.error .decodeMismatch, [req])

/-- `SnarkId.status` (lines 197-209): same shape as `SessionId.status`,
including the default `validateStatus` rejection on non-2xx. -/
def SnarkId.status (s : SnarkId) (c : Client) (net : Net) :
    Except Err SnarkStatusRes × List Request :=
  let req := getReq (c.url ++ "/snark/status/" ++ s.uuid)
  match axiosDefault net req with
  | .error d => (.error (.axiosError d), [req])
  | .ok res =>
    if res.status ≠ 200 then (.error (.serverError res.data), [req])
    else match res.data with
      | .snarkStatus j => (.ok j, [req])
      | _ => (.error .decodeMismatch, [req])

/-- `Client.getImageUploadUrl` (lines 255-270): the GET uses the default
`validateStatus`, so a non-2xx response rejects with an uncaught
`AxiosError`.  Of the delivered 2xx responses, 204 means the image exists;
a 2xx other than 200/204 throws `InternalServerError`; and on 200 the code
evaluates `res.data.json()` (line 268) — the axios body is the already
parsed object and has no `.json` method, so this throws a TypeError and the
`New` outcome is never produced. -/
def Client.getImageUploadUrl (c : Client) (net : Net) (imageId : String) :
    Except Err ImageExistsOpt × List Request :=
  let req := getReq (c.url ++ "/images/upload/" ++ imageId)
  match axiosDefault net req with
  | .error d => (.error (.axiosError d), [req])
  | .ok res =>
    if res.status = 204 then (.ok .Exists, [req])
    else if res.status ≠ 200 then (.error (.serverError res.data), [req])
    else (.error .typeError, [req])

/-- `Client.putData` (lines 272-286): the PUT uses the default
`validateStatus`, so a non-2xx response rejects inside the `try` with an
`AxiosError`; the catch's `axios.isAxiosError` branch rethrows it as
`InternalServerError` with `error.response?.data` in the message.  For a
delivered (2xx) response the inner `status < 200 || status >= 300` throw is
unreachable. -/
def Client.putData (c : Client) (net : Net) (url : String) (body : List Nat) :
    Except Err Unit × List Request :=
  let req := putReq url body
  match axiosDefault net req with
  | .error d => (.error (.serverError d), [req])
  | .ok _ => (.ok (), [req])

/-- `Client.uploadImg` (lines 288-298).  The final `else` branch of the TS
code (`Unexpected response from get_image_upload_url`) is unreachable in the
typed model because the match on `ImageExistsOpt` is exhaustive. -/
def Client.uploadImg (c : Client) (net : Net) (imageId : String) (buf : List Nat) :
    Except Err Bool × List Request :=
  match c.getImageUploadUrl net imageId with
  | (.error e, rs) => (.error e, rs)
  | (.ok .Exists, rs) => (.ok true, rs)
  | (.ok (.New d), rs) =>
    match c.putData net d.url buf with
    | (.error e, rs2) => (.error e, rs ++ rs2)
    | (.ok _, rs2) => (.ok false, rs ++ rs2)

/-- `Client.getUploadUrl` (lines 300-311): default `validateStatus`, so the
`InternalServerError` branch is reachable only for 2xx statuses other than
200; on 200 the body is read by `await res.data` (an unchecked cast). -/
def Client.getUploadUrl (c : Client) (net : Net) (route : String) :
    Except Err UploadRes × List Request :=
  let req := getReq (c.url ++ "/" ++ route ++ "/upload")
  match axiosDefault net req with
  | .error d => (.error (.axiosError d), [req])
  | .ok res =>
    if res.status ≠ 200 then (.error (.serverError res.data), [req])
    else match res.data with
      | .upload d => (.ok d, [req])
      | _ => (.error .decodeMismatch, [req])

/-- `Client.uploadInput` (lines 313-323): hex-decode, `shift()` off the first
byte, fetch a presigned URL from the `inputs` route, PUT the remaining bytes,
return the UUID. -/
def Client.uploadInput (c : Client) (net : Net) (encoded : String) :
    Except Err String × List Request :=
  match fromHexString encoded with
  | none => (.error .typeError, [])
  | some decoded =>
    let buf := decoded.drop 1
    match c.getUploadUrl net "inputs" with
    | (.error e, rs) => (.error e, rs)
    | (.ok uploadData, rs) =>
      match c.putData net uploadData.url buf with
      | (.error e, rs2) => (.error e, rs ++ rs2)
      | (.ok _, rs2) => (.ok uploadData.uuid, rs ++ rs2)

/-- `Client.download` (lines 347-355): the GET uses the default
`validateStatus`, so a non-2xx presigned-URL response rejects and is caught
and rethrown as `SdkErr("Download failed: ...")` (the interpolated axios
message is abstracted to the fixed prefix); a 2xx response's raw bytes are
returned unchanged. -/
def Client.download (c : Client) (net : Net) (url : String) :
    Except Err (List Nat) × List Request :=
  let req := getReq url
  match axiosDefault net req with
  | .error _ => (.error (.sdkErr "Download failed"), [req])
  | .ok res =>
    match res.data with
    | .bytes b => (.ok b, [req])
    | _ => (.error .decodeMismatch, [req])

/-- `Client.receiptDownload` (lines 331-345): this lookup passes
`validateStatus: () => true` (line 333), so every status is delivered and
the code's own checks run: a non-2xx status throws —
`SdkErr("ReceiptNotFound")` for 404, `InternalServerError` with the body
otherwise; on 2xx the returned presigned URL is downloaded. -/
def Client.receiptDownload (c : Client) (net : Net) (sessionId : SessionId) :
    Except Err (List Nat) × List Request :=
  let req := getReq (c.url ++ "/receipts/" ++ sessionId.uuid)
  let res := axiosValidateAll net req
  if res.status < 200 ∨ 300 ≤ res.status then
    if res.status = 404 then (.error (.sdkErr "ReceiptNotFound"), [req])
    else (.error (.serverError res.data), [req])
  else match res.data with
    | .receiptLoc receipt =>
      match c.download net receipt.url with
      | (out, rs) => (out, req :: rs)
    | _ => (.error .decodeMismatch, [req])

/-- `Client.createSessionWithLimit` (lines 375-396): the POST uses the
default `validateStatus`, so a non-2xx response rejects with an uncaught
`AxiosError` and the code's own `status < 200 || status >= 300` check
(line 387, kept below as in the source) is dead for delivered responses. -/
def Client.createSessionWithLimit (c : Client) (net : Net)
    (imgId inputId : String) (assumptions : List String) (executeOnly : Bool)
    (execCycleLimit : Option Int) : Except Err SessionId × List Request :=
  let req : Request := ⟨.post, c.url ++ "/sessions/create",
    .sessionCreate ⟨imgId, inputId, assumptions, executeOnly, execCycleLimit⟩⟩
  match axiosDefault net req with
  | .error d => (.error (.axiosError d), [req])
  | .ok res =>
    if res.status < 200 ∨ 300 ≤ res.status then
      (.error (.serverError res.data), [req])
    else match res.data with
      | .created r => (.ok ⟨r.uuid⟩, [req])
      | _ => (.error .decodeMismatch, [req])

/-- `Client.createSession` (lines 398-401): delegate with an undefined
cycle limit. -/
def Client.createSession (c : Client) (net : Net)
    (imgId inputId : String) (assumptions : List String) (executeOnly : Bool) :
    Except Err SessionId × List Request :=
  c.createSessionWithLimit net imgId inputId assumptions executeOnly none


/-! ## Spec-side reference definitions and concrete test fixtures -/

/-- The probing order of framework prefixes, as data (spec wording). -/
def envPrefixes : List String :=
  ["REACT_APP_", "NEXT_PUBLIC_", "GATSBY_", "VUE_APP_", "VITE_", "PUBLIC_", "NUXT_ENV_", ""]

/-- Spec-side resolver: the value of the first set variant in priority
order, `none` when no variant is set. -/
def resolveFirst (env : Env) (name : String) : Option String :=
  envPrefixes.findSome? (fun p => env (p ++ name))

/-- An environment with no variable set. -/
def emptyEnv : Env := fun _ => Option.none

/-- A concrete environment setting both the `REACT_APP_` and `VITE_`
variants of both variables. -/
def envBoth : Env := fun nm =>
  if nm = "REACT_APP_BONSAI_API_URL" then some "https://r"
  else if nm = "VITE_BONSAI_API_URL" then some "https://v"
  else if nm = "REACT_APP_BONSAI_API_KEY" then some "rk"
  else if nm = "VITE_BONSAI_API_KEY" then some "vk"
  else Option.none

/-- An environment where only the bare `BONSAI_API_URL` is set. -/
def envUrlOnly : Env := fun nm =>
  if nm = "BONSAI_API_URL" then some "https://api" else Option.none

/-- A character the regex chunks of `uploadInput` parse as a hex digit. -/
def isHexDigitChar (c : Char) : Bool := (digitVal 16 c).isSome

/-- Numeric value of a hex digit (0 for non-digits). -/
def hexVal (c : Char) : Nat := (digitVal 16 c).getD 0

/-- Spec-side chunking: two characters per chunk. -/
def hexPairChunks : List Char → List (List Char)
  | a :: b :: t => [a, b] :: hexPairChunks t
  | _ => []

/-- Spec-side decoder: one byte per two hex characters. -/
def hexPairBytes : List Char → List Nat
  | a :: b :: t => (16 * hexVal a + hexVal b) :: hexPairBytes t
  | _ => []

/-- A non-empty even-length string of hex digits. -/
def isEvenHexStr (s : String) : Bool :=
  !s.data.isEmpty && s.data.length % 2 == 0 && s.data.all isHexDigitChar

def clientW : Client := ⟨"https://api", ⟨"key", "1.0", some 30000⟩⟩

def sidW : SessionId := ⟨"sess-1"⟩

def kidW : SnarkId := ⟨"snark-1"⟩

/-- A status snapshot whose optional fields violate the receipt-url
invariant, to witness that `status()` surfaces it unvalidated. -/
def jW : SessionStatusRes :=
  ⟨"SUCCEEDED", Option.none, Option.none, Option.none, Option.none, Option.none⟩

def netC1 : Net := fun r =>
  if r.url = "https://api" ++ "/" ++ "inputs" ++ "/upload" then
    ⟨200, .upload ⟨"https://put-input", "uuid-42"⟩⟩
  else ⟨200, .empty⟩

def netC5 : Net := fun r =>
  if r.url = "https://api" ++ "/images/upload/" ++ "img-exists" then ⟨204, .empty⟩
  else if r.url = "https://api" ++ "/images/upload/" ++ "img-new" then
    ⟨200, .imgUpload ⟨"https://put-img"⟩⟩
  else ⟨201, .empty⟩

def netC6 : Net := fun r =>
  if r.url = "https://api" ++ "/receipts/" ++ "sess-1" then ⟨200, .receiptLoc ⟨"https://dl"⟩⟩
  else if r.url = "https://dl" then ⟨200, .bytes [7, 8, 9]⟩
  else ⟨500, .empty⟩

def netC6b : Net := fun _ => ⟨404, .text "nope"⟩

def netC7 : Net := fun r =>
  if r.url = "https://api" ++ "/sessions/status/" ++ "sess-1" then ⟨200, .sessStatus jW⟩
  else ⟨500, .text "boom"⟩

def netC8 : Net := fun r =>
  if r.url = "https://api" ++ "/sessions/create" then ⟨200, .created ⟨"sess-99"⟩⟩
  else ⟨500, .empty⟩

/-- A server answering every request with a 500 and a text body. -/
def netBad : Net := fun _ => ⟨500, .text "boom"⟩

/-- A server whose receipt lookup succeeds but whose presigned download URL
answers with a non-2xx status that still carries bytes. -/
def netC6bad : Net := fun r =>
  if r.url = "https://api" ++ "/receipts/" ++ "sess-1" then ⟨200, .receiptLoc ⟨"https://dl"⟩⟩
  else ⟨500, .bytes [1, 2, 3]⟩

/-! ## Theorems -/
theorem getURL_eq_resolveFirst (env : Env) :
    getURL env = (match resolveFirst env API_URL_ENVVAR with
      | some v => .ok v
      | none => .error "bonsai sdk env variables are not set!") := by
  unfold getURL resolveFirst envPrefixes
  simp only [List.findSome?_cons, List.findSome?_nil]
  cases env ("REACT_APP_" ++ API_URL_ENVVAR) with
  | some v => rfl
  | none =>
  cases env ("NEXT_PUBLIC_" ++ API_URL_ENVVAR) with
  | some v => rfl
  | none =>
  cases env ("GATSBY_" ++ API_URL_ENVVAR) with
  | some v => rfl
  | none =>
  cases env ("VUE_APP_" ++ API_URL_ENVVAR) with
  | some v => rfl
  | none =>
  cases env ("VITE_" ++ API_URL_ENVVAR) with
  | some v => rfl
  | none =>
  cases env ("PUBLIC_" ++ API_URL_ENVVAR) with
  | some v => rfl
  | none =>
  cases env ("NUXT_ENV_" ++ API_URL_ENVVAR) with
  | some v => rfl
  | none =>
  rw [show ("" : String) ++ API_URL_ENVVAR = API_URL_ENVVAR from rfl]
  cases env API_URL_ENVVAR with
  | some v => rfl
  | none => rfl

theorem getKey_eq_resolveFirst (env : Env) :
    getKey env = (match resolveFirst env API_KEY_ENVVAR with
      | some v => .ok v
      | none => .error "bonsai sdk env variables are not set!") := by
  unfold getKey resolveFirst envPrefixes
  simp only [List.findSome?_cons, List.findSome?_nil]
  cases env ("REACT_APP_" ++ API_KEY_ENVVAR) with
  | some v => rfl
  | none =>
  cases env ("NEXT_PUBLIC_" ++ API_KEY_ENVVAR) with
  | some v => rfl
  | none =>
  cases env ("GATSBY_" ++ API_KEY_ENVVAR) with
  | some v => rfl
  | none =>
  cases env ("VUE_APP_" ++ API_KEY_ENVVAR) with
  | some v => rfl
  | none =>
  cases env ("VITE_" ++ API_KEY_ENVVAR) with
  | some v => rfl
  | none =>
  cases env ("PUBLIC_" ++ API_KEY_ENVVAR) with
  | some v => rfl
  | none =>
  cases env ("NUXT_ENV_" ++ API_KEY_ENVVAR) with
  | some v => rfl
  | none =>
  rw [show ("" : String) ++ API_KEY_ENVVAR = API_KEY_ENVVAR from rfl]
  cases env API_KEY_ENVVAR with
  | some v => rfl
  | none => rfl

/-- C2: the API URL and API key each resolve by probing the prefixes in the
fixed order, returning the value of the first variable that is set; if both
the `REACT_APP_` and `VITE_` variants are set, the `REACT_APP_` value wins. -/
theorem c2_env_probe_order :
    (∀ (env : Env) (v : String),
        resolveFirst env API_URL_ENVVAR = some v → getURL env = .ok v) ∧
    (∀ (env : Env) (v : String),
        resolveFirst env API_KEY_ENVVAR = some v → getKey env = .ok v) ∧
    (∀ (env : Env) (v w : String), env ("REACT_APP_" ++ API_URL_ENVVAR) = some v →
        env ("VITE_" ++ API_URL_ENVVAR) = some w → getURL env = .ok v) ∧
    (∀ (env : Env) (v w : String), env ("REACT_APP_" ++ API_KEY_ENVVAR) = some v →
        env ("VITE_" ++ API_KEY_ENVVAR) = some w → getKey env = .ok w → w = v) := by
  refine ⟨?_, ?_, ?_, ?_⟩
  · intro env v h
    rw [getURL_eq_resolveFirst, h]
  · intro env v h
    rw [getKey_eq_resolveFirst, h]
  · intro env v w h1 _
    have : resolveFirst env API_URL_ENVVAR = some v := by
      unfold resolveFirst envPrefixes
      simp [List.findSome?_cons, h1]
    rw [getURL_eq_resolveFirst, this]
  · intro env v w h1 _ h3
    have : resolveFirst env API_KEY_ENVVAR = some v := by
      unfold resolveFirst envPrefixes
      simp [List.findSome?_cons, h1]
    rw [getKey_eq_resolveFirst, this] at h3
    cases h3
    rfl

theorem c2_env_probe_order_witness :
    getURL envBoth = .ok "https://r" ∧ getKey envBoth = .ok "rk" := by
  constructor
  · exact c2_env_probe_order.1 envBoth "https://r" (by decide)
  · exact c2_env_probe_order.2.1 envBoth "rk" (by decide)

theorem getURL_of_unset (env : Env)
    (h : ∀ p ∈ envPrefixes, env (p ++ API_URL_ENVVAR) = Option.none) :
    getURL env = .error "bonsai sdk env variables are not set!" := by
  rw [getURL_eq_resolveFirst]
  have : resolveFirst env API_URL_ENVVAR = Option.none := by
    unfold resolveFirst
    rw [List.findSome?_eq_none_iff]
    intro p hp
    exact h p hp
  rw [this]

theorem getKey_of_unset (env : Env)
    (h : ∀ p ∈ envPrefixes, env (p ++ API_KEY_ENVVAR) = Option.none) :
    getKey env = .error "bonsai sdk env variables are not set!" := by
  rw [getKey_eq_resolveFirst]
  have : resolveFirst env API_KEY_ENVVAR = Option.none := by
    unfold resolveFirst
    rw [List.findSome?_eq_none_iff]
    intro p hp
    exact h p hp
  rw [this]

/-- C3 counterexample: with no variable set at all, `fromEnv` fails with the
plain `Error("bonsai sdk env variables are not set!")` thrown inside
`getURL`, not with the `SdkErr("Missing API URL")` the claim names (that
check is dead for unset variables because `getURL` throws first). -/
theorem c3_counterexample :
    Client.fromEnv emptyEnv "1.0" = .error (.jsError "bonsai sdk env variables are not set!") ∧
    Client.fromEnv emptyEnv "1.0" ≠ .error (.sdkErr "Missing API URL") := by
  have h1 : Client.fromEnv emptyEnv "1.0"
      = .error (.jsError "bonsai sdk env variables are not set!") := rfl
  refine ⟨h1, ?_⟩
  rw [h1]
  simp

/-- C3 as amended: when no variant of the API URL variable is set, `fromEnv`
fails with the generic `Error("bonsai sdk env variables are not set!")`
raised by `getURL`; when the URL resolves to a non-empty value but no
variant of the API key variable is set, the same generic error is raised by
`getKey`.  The `SdkErr` messages "Missing API URL" / "Missing API Key" are
reachable only when the first set variant holds the empty string. -/
theorem c3_amended :
    (∀ (env : Env) (ver : String),
        (∀ p ∈ envPrefixes, env (p ++ API_URL_ENVVAR) = Option.none) →
        Client.fromEnv env ver = .error (.jsError "bonsai sdk env variables are not set!")) ∧
    (∀ (env : Env) (ver u : String), getURL env = .ok u → u ≠ "" →
        (∀ p ∈ envPrefixes, env (p ++ API_KEY_ENVVAR) = Option.none) →
        Client.fromEnv env ver = .error (.jsError "bonsai sdk env variables are not set!")) ∧
    (∀ (env : Env) (ver u : String), getURL env = .ok u → u = "" →
        Client.fromEnv env ver = .error (.sdkErr "Missing API URL")) := by
  refine ⟨?_, ?_, ?_⟩
  · intro env ver h
    unfold Client.fromEnv
    rw [getURL_of_unset env h]
  · intro env ver u hu hne h
    unfold Client.fromEnv
    rw [hu, getKey_of_unset env h]
    simp [hne]
  · intro env ver u hu he
    unfold Client.fromEnv
    rw [hu]
    simp [he]

theorem c3_amended_witness :
    Client.fromEnv emptyEnv "1.0" = .error (.jsError "bonsai sdk env variables are not set!") ∧
    Client.fromEnv envUrlOnly "1.0" = .error (.jsError "bonsai sdk env variables are not set!") := by
  constructor
  · exact c3_amended.1 emptyEnv "1.0" (by intro p _; rfl)
  · exact c3_amended.2.1 envUrlOnly "1.0" "https://api" rfl (by decide)
      (by intro p hp; fin_cases hp <;> rfl)

/-- C4: the timeout of the constructed request client is `"none"`-aware:
the literal string "none" disables the timeout, an unset variable yields the
default 30000, and any other string is `parseInt`-parsed with the default as
the `NaN` fallback. -/
theorem c4_timeout_resolution :
    (∀ (env : Env) (k v : String),
        (constructReqClient env k v).timeout = resolveTimeout (env TIMEOUT_ENVVAR)) ∧
    resolveTimeout Option.none = some DEFAULT_TIMEOUT ∧
    resolveTimeout (some "none") = Option.none ∧
    (∀ s : String, s ≠ "none" →
        resolveTimeout (some s) = some ((parseIntJS 10 s).getD DEFAULT_TIMEOUT)) ∧
    resolveTimeout (some "5000") = some 5000 ∧
    resolveTimeout (some "abc") = some DEFAULT_TIMEOUT := by
  refine ⟨fun env k v => rfl, rfl, rfl, ?_, by decide, by decide⟩
  intro s hs
  unfold resolveTimeout
  rw [if_neg (by simpa using hs)]
  dsimp only
  by_cases he : s = ""
  · subst he
    decide
  · rw [if_neg he]
    cases hp : parseIntJS 10 s with
    | none => simp [hp]
    | some n => simp [hp]

theorem c4_timeout_resolution_witness :
    resolveTimeout (some "7500") = some ((parseIntJS 10 "7500").getD DEFAULT_TIMEOUT) ∧
    resolveTimeout (some "7500") = some 7500 := by
  constructor
  · exact c4_timeout_resolution.2.2.2.1 "7500" (by decide)
  · decide

/-- C7 counterexample: on a 500 response the session status lookup rejects
with the uncaught `AxiosError`, not with `InternalServerError` carrying the
body as the claim states. -/
theorem c7_counterexample :
    sidW.status clientW netBad
      = (.error (.axiosError (.text "boom")),
         [getReq ("https://api" ++ "/sessions/status/" ++ "sess-1")]) ∧
    sidW.status clientW netBad
      ≠ (.error (.serverError (.text "boom")),
         [getReq ("https://api" ++ "/sessions/status/" ++ "sess-1")]) := by
  have h1 : sidW.status clientW netBad
      = (.error (.axiosError (.text "boom")),
         [getReq ("https://api" ++ "/sessions/status/" ++ "sess-1")]) := rfl
  refine ⟨h1, ?_⟩
  rw [h1]
  simp

/-- C7 as amended: both `status()` operations reject with an uncaught
`AxiosError` carrying the response body when the status endpoint responds
with a non-2xx code (the default `validateStatus` rejects before the
client's own check), raise `InternalServerError` carrying the body only for
2xx codes other than 200, and on a 200 response return the decoded snapshot
exactly as received, for every snapshot value (hence with no client-side
validation of the optional-field invariants). -/
theorem c7_status_amended (c : Client) (net : Net) (sid : SessionId) (kid : SnarkId) :
    (∀ st d, net (getReq (c.url ++ "/sessions/status/" ++ sid.uuid)) = ⟨st, d⟩ →
        st < 200 ∨ 300 ≤ st →
        sid.status c net = (.error (.axiosError d),
          [getReq (c.url ++ "/sessions/status/" ++ sid.uuid)])) ∧
    (∀ st d, net (getReq (c.url ++ "/sessions/status/" ++ sid.uuid)) = ⟨st, d⟩ →
        200 ≤ st → st < 300 → st ≠ 200 →
        sid.status c net = (.error (.serverError d),
          [getReq (c.url ++ "/sessions/status/" ++ sid.uuid)])) ∧
    (∀ j, net (getReq (c.url ++ "/sessions/status/" ++ sid.uuid)) = ⟨200, .sessStatus j⟩ →
        sid.status c net = (.ok j, [getReq (c.url ++ "/sessions/status/" ++ sid.uuid)])) ∧
    (∀ st d, net (getReq (c.url ++ "/snark/status/" ++ kid.uuid)) = ⟨st, d⟩ →
        st < 200 ∨ 300 ≤ st →
        kid.status c net = (.error (.axiosError d),
          [getReq (c.url ++ "/snark/status/" ++ kid.uuid)])) ∧
    (∀ st d, net (getReq (c.url ++ "/snark/status/" ++ kid.uuid)) = ⟨st, d⟩ →
        200 ≤ st → st < 300 → st ≠ 200 →
        kid.status c net = (.error (.serverError d),
          [getReq (c.url ++ "/snark/status/" ++ kid.uuid)])) ∧
    (∀ j, net (getReq (c.url ++ "/snark/status/" ++ kid.uuid)) = ⟨200, .snarkStatus j⟩ →
        kid.status c net = (.ok j, [getReq (c.url ++ "/snark/status/" ++ kid.uuid)])) := by
  refine ⟨?_, ?_, ?_, ?_, ?_, ?_⟩
  · intro st d h hbad
    unfold SessionId.status axiosDefault
    dsimp only
    rw [h]
    simp only [Response.status, Response.data]
    rw [if_pos hbad]
  · intro st d h h1 h2 hne
    unfold SessionId.status axiosDefault
    dsimp only
    rw [h]
    simp only [Response.status, Response.data]
    rw [if_neg (by omega)]
    simp [hne]
  · intro j h
    unfold SessionId.status axiosDefault
    dsimp only
    rw [h]
    simp
  · intro st d h hbad
    unfold SnarkId.status axiosDefault
    dsimp only
    rw [h]
    simp only [Response.status, Response.data]
    rw [if_pos hbad]
  · intro st d h h1 h2 hne
    unfold SnarkId.status axiosDefault
    dsimp only
    rw [h]
    simp only [Response.status, Response.data]
    rw [if_neg (by omega)]
    simp [hne]
  · intro j h
    unfold SnarkId.status axiosDefault
    dsimp only
    rw [h]
    simp

/-- C8 counterexample: on a 500 response to the job-creation POST,
`createSession` rejects with the uncaught `AxiosError`, not with
`InternalServerError` carrying the body as the claim states. -/
theorem c8_counterexample :
    clientW.createSession netBad "img" "inp" [] false
      = (.error (.axiosError (.text "boom")), [⟨.post, "https://api" ++ "/sessions/create",
          .sessionCreate ⟨"img", "inp", [], false, Option.none⟩⟩]) ∧
    clientW.createSession netBad "img" "inp" [] false
      ≠ (.error (.serverError (.text "boom")), [⟨.post, "https://api" ++ "/sessions/create",
          .sessionCreate ⟨"img", "inp", [], false, Option.none⟩⟩]) := by
  have h1 : clientW.createSession netBad "img" "inp" [] false
      = (.error (.axiosError (.text "boom")), [⟨.post, "https://api" ++ "/sessions/create",
          .sessionCreate ⟨"img", "inp", [], false, Option.none⟩⟩]) := rfl
  refine ⟨h1, ?_⟩
  rw [h1]
  simp

/-- C8 as amended: `createSession` behaves identically to
`createSessionWithLimit` called with the same arguments and no cycle limit:
it POSTs the same job-creation request; on a non-2xx response the POST
rejects with an uncaught `AxiosError` carrying the response body (the
`InternalServerError` branch after the default `validateStatus` is dead);
and on success it returns a `SessionId` carrying the UUID from the
response. -/
theorem c8_createSession_amended (c : Client) (net : Net) (imgId inputId : String)
    (assumptions : List String) (executeOnly : Bool) :
    c.createSession net imgId inputId assumptions executeOnly
      = c.createSessionWithLimit net imgId inputId assumptions executeOnly Option.none ∧
    (∀ st d, net ⟨.post, c.url ++ "/sessions/create",
          .sessionCreate ⟨imgId, inputId, assumptions, executeOnly, Option.none⟩⟩ = ⟨st, d⟩ →
        st < 200 ∨ 300 ≤ st →
        c.createSession net imgId inputId assumptions executeOnly
          = (.error (.axiosError d), [⟨.post, c.url ++ "/sessions/create",
              .sessionCreate ⟨imgId, inputId, assumptions, executeOnly, Option.none⟩⟩])) ∧
    (∀ st r, 200 ≤ st → st < 300 →
        net ⟨.post, c.url ++ "/sessions/create",
          .sessionCreate ⟨imgId, inputId, assumptions, executeOnly, Option.none⟩⟩ = ⟨st, .created r⟩ →
        c.createSession net imgId inputId assumptions executeOnly
          = (.ok ⟨r.uuid⟩, [⟨.post, c.url ++ "/sessions/create",
              .sessionCreate ⟨imgId, inputId, assumptions, executeOnly, Option.none⟩⟩])) := by
  refine ⟨rfl, ?_, ?_⟩
  · intro st d h hbad
    unfold Client.createSession Client.createSessionWithLimit axiosDefault
    dsimp only
    rw [h]
    simp only [Response.status, Response.data]
    rw [if_pos hbad]
  · intro st r h1 h2 h
    unfold Client.createSession Client.createSessionWithLimit axiosDefault
    dsimp only
    rw [h]
    simp only [Response.status, Response.data]
    rw [if_neg (by omega)]
    dsimp only
    rw [if_neg (by omega)]

/-- C5 counterexample: on a 200 status-check response carrying a presigned
URL, `getImageUploadUrl` throws the TypeError from `res.data.json()` instead
of returning the `New` outcome the claim states (and so `uploadImg` never
performs the PUT). -/
theorem c5_counterexample :
    clientW.getImageUploadUrl netC5 "img-new"
      = (.error .typeError, [getReq ("https://api" ++ "/images/upload/" ++ "img-new")]) ∧
    clientW.getImageUploadUrl netC5 "img-new"
      ≠ (.ok (.New ⟨"https://put-img"⟩),
         [getReq ("https://api" ++ "/images/upload/" ++ "img-new")]) ∧
    clientW.uploadImg netC5 "img-new" [1, 2]
      = (.error .typeError, [getReq ("https://api" ++ "/images/upload/" ++ "img-new")]) := by
  have h1 : clientW.getImageUploadUrl netC5 "img-new"
      = (.error .typeError, [getReq ("https://api" ++ "/images/upload/" ++ "img-new")]) := rfl
  refine ⟨h1, ?_, rfl⟩
  rw [h1]
  simp

/-- C5 as amended: a 204 status-check response yields the `Exists` outcome
and `uploadImg` returns `true` performing no further network call; on a 200
response the implementation throws a TypeError when it calls
`res.data.json()` on the already-decoded axios body, so the `New` outcome
and the PUT are unreachable and `uploadImg` propagates that TypeError after
the single status-check request; a 2xx status other than 200 and 204 raises
`InternalServerError` carrying the response body; a non-2xx status rejects
with an uncaught `AxiosError` carrying the response body. -/
theorem c5_image_upload_amended (c : Client) (net : Net) (imageId : String) (buf : List Nat) :
    ((net (getReq (c.url ++ "/images/upload/" ++ imageId))).status = 204 →
        c.getImageUploadUrl net imageId
          = (.ok .Exists, [getReq (c.url ++ "/images/upload/" ++ imageId)]) ∧
        c.uploadImg net imageId buf
          = (.ok true, [getReq (c.url ++ "/images/upload/" ++ imageId)])) ∧
    ((net (getReq (c.url ++ "/images/upload/" ++ imageId))).status = 200 →
        c.getImageUploadUrl net imageId
          = (.error .typeError, [getReq (c.url ++ "/images/upload/" ++ imageId)]) ∧
        c.uploadImg net imageId buf
          = (.error .typeError, [getReq (c.url ++ "/images/upload/" ++ imageId)])) ∧
    (∀ st d, net (getReq (c.url ++ "/images/upload/" ++ imageId)) = ⟨st, d⟩ →
        200 ≤ st → st < 300 → st ≠ 204 → st ≠ 200 →
        c.getImageUploadUrl net imageId
          = (.error (.serverError d), [getReq (c.url ++ "/images/upload/" ++ imageId)])) ∧
    (∀ st d, net (getReq (c.url ++ "/images/upload/" ++ imageId)) = ⟨st, d⟩ →
        st < 200 ∨ 300 ≤ st →
        c.getImageUploadUrl net imageId
          = (.error (.axiosError d), [getReq (c.url ++ "/images/upload/" ++ imageId)])) := by
  refine ⟨?_, ?_, ?_, ?_⟩
  · intro h204
    have hg : c.getImageUploadUrl net imageId
        = (.ok .Exists, [getReq (c.url ++ "/images/upload/" ++ imageId)]) := by
      unfold Client.getImageUploadUrl axiosDefault
      dsimp only
      rw [if_neg (by omega)]
      dsimp only
      rw [if_pos h204]
    refine ⟨hg, ?_⟩
    unfold Client.uploadImg
    rw [hg]
  · intro h200
    have hg : c.getImageUploadUrl net imageId
        = (.error .typeError, [getReq (c.url ++ "/images/upload/" ++ imageId)]) := by
      unfold Client.getImageUploadUrl axiosDefault
      dsimp only
      rw [if_neg (by omega)]
      simp [h200]
    refine ⟨hg, ?_⟩
    unfold Client.uploadImg
    rw [hg]
  · intro st d h h1 h2 h204 h200
    unfold Client.getImageUploadUrl axiosDefault
    dsimp only
    rw [h]
    simp only [Response.status, Response.data]
    rw [if_neg (by omega)]
    dsimp only
    rw [if_neg h204]
    simp [h200]
  · intro st d h hbad
    unfold Client.getImageUploadUrl axiosDefault
    dsimp only
    rw [h]
    simp only [Response.status, Response.data]
    rw [if_pos hbad]

theorem receiptDownload_notFound_iff (c : Client) (net : Net) (sid : SessionId) :
    (c.receiptDownload net sid).1 = .error (.sdkErr "ReceiptNotFound") ↔
      (net (getReq (c.url ++ "/receipts/" ++ sid.uuid))).status = 404 := by
  unfold Client.receiptDownload axiosValidateAll
  dsimp only
  split_ifs with hbad h404
  · simp [h404]
  · constructor
    · intro hcon
      simp at hcon
    · intro hcon
      exact absurd hcon h404
  · have hne : (net (getReq (c.url ++ "/receipts/" ++ sid.uuid))).status ≠ 404 := by omega
    cases hd : (net (getReq (c.url ++ "/receipts/" ++ sid.uuid))).data with
    | receiptLoc r =>
      unfold Client.download axiosDefault
      dsimp only
      by_cases hb2 : (net (getReq r.url)).status < 200 ∨ 300 ≤ (net (getReq r.url)).status
      · rw [if_pos hb2]
        simp [hne]
      · rw [if_neg hb2]
        cases hd2 : (net (getReq r.url)).data <;> simp [hne, hd2]
    | empty => simp [hne]
    | upload u => simp [hne]
    | imgUpload u => simp [hne]
    | created r => simp [hne]
    | sessStatus j => simp [hne]
    | snarkStatus j => simp [hne]
    | bytes b => simp [hne]
    | text t => simp [hne]

/-- C6 counterexample: when the lookup succeeds but the follow-up GET of the
presigned URL responds with a non-2xx status whose body carries bytes, the
program rethrows the rejected GET as `SdkErr("Download failed: ...")`
instead of returning those bytes unchanged as the claim states. -/
theorem c6_counterexample :
    clientW.receiptDownload netC6bad sidW
      = (.error (.sdkErr "Download failed"),
         [getReq ("https://api" ++ "/receipts/" ++ "sess-1"), getReq "https://dl"]) ∧
    clientW.receiptDownload netC6bad sidW
      ≠ (.ok [1, 2, 3],
         [getReq ("https://api" ++ "/receipts/" ++ "sess-1"), getReq "https://dl"]) := by
  have h1 : clientW.receiptDownload netC6bad sidW
      = (.error (.sdkErr "Download failed"),
         [getReq ("https://api" ++ "/receipts/" ++ "sess-1"), getReq "https://dl"]) := rfl
  refine ⟨h1, ?_⟩
  rw [h1]
  simp

/-- C6 as amended: `receiptDownload` raises `SdkErr("ReceiptNotFound")`
exactly when the lookup responds 404 (a different constructor than the
generic `InternalServerError`, so callers can branch), raises
`InternalServerError` with the body on any other non-2xx lookup status, and
on a 2xx lookup response issues a follow-up GET to the returned presigned
URL: if that GET responds 2xx its raw bytes are returned unchanged, while a
non-2xx follow-up rejects under the default `validateStatus` and is
rethrown as a `SdkErr("Download failed: ...")` download failure. -/
theorem c6_receipt_download_amended (c : Client) (net : Net) (sid : SessionId) :
    ((net (getReq (c.url ++ "/receipts/" ++ sid.uuid))).status = 404 →
        c.receiptDownload net sid
          = (.error (.sdkErr "ReceiptNotFound"), [getReq (c.url ++ "/receipts/" ++ sid.uuid)])) ∧
    (∀ st d, net (getReq (c.url ++ "/receipts/" ++ sid.uuid)) = ⟨st, d⟩ →
        (st < 200 ∨ 300 ≤ st) → st ≠ 404 →
        c.receiptDownload net sid
          = (.error (.serverError d), [getReq (c.url ++ "/receipts/" ++ sid.uuid)])) ∧
    (∀ st st2 r b, 200 ≤ st → st < 300 →
        net (getReq (c.url ++ "/receipts/" ++ sid.uuid)) = ⟨st, .receiptLoc r⟩ →
        net (getReq r.url) = ⟨st2, .bytes b⟩ → 200 ≤ st2 → st2 < 300 →
        c.receiptDownload net sid
          = (.ok b, [getReq (c.url ++ "/receipts/" ++ sid.uuid), getReq r.url])) ∧
    (∀ st st2 d2 r, 200 ≤ st → st < 300 →
        net (getReq (c.url ++ "/receipts/" ++ sid.uuid)) = ⟨st, .receiptLoc r⟩ →
        net (getReq r.url) = ⟨st2, d2⟩ → (st2 < 200 ∨ 300 ≤ st2) →
        c.receiptDownload net sid
          = (.error (.sdkErr "Download failed"),
             [getReq (c.url ++ "/receipts/" ++ sid.uuid), getReq r.url])) ∧
    ((c.receiptDownload net sid).1 = .error (.sdkErr "ReceiptNotFound") ↔
        (net (getReq (c.url ++ "/receipts/" ++ sid.uuid))).status = 404) ∧
    (∀ d, Err.sdkErr "ReceiptNotFound" ≠ Err.serverError d) := by
  refine ⟨?_, ?_, ?_, ?_, receiptDownload_notFound_iff c net sid, by intro d; simp⟩
  · intro h404
    unfold Client.receiptDownload axiosValidateAll
    dsimp only
    rw [if_pos (by omega), if_pos h404]
  · intro st d h hbad h404
    unfold Client.receiptDownload axiosValidateAll
    dsimp only
    rw [h]
    simp only [Response.status, Response.data]
    rw [if_pos hbad, if_neg h404]
  · intro st st2 r b h1 h2 h hb hlo hhi
    unfold Client.receiptDownload axiosValidateAll
    dsimp only
    rw [h]
    simp only [Response.status, Response.data]
    rw [if_neg (by omega)]
    unfold Client.download axiosDefault
    dsimp only
    rw [hb]
    simp only [Response.status, Response.data]
    rw [if_neg (by omega)]
  · intro st st2 d2 r h1 h2 h hb hbad2
    unfold Client.receiptDownload axiosValidateAll
    dsimp only
    rw [h]
    simp only [Response.status, Response.data]
    rw [if_neg (by omega)]
    unfold Client.download axiosDefault
    dsimp only
    rw [hb]
    simp only [Response.status, Response.data]
    rw [if_pos hbad2]

/-- C10: when the hex-pair regex finds no match (in particular for the empty
string), `uploadInput` throws a TypeError — from dereferencing the asserted
non-null match result — before issuing any network request; a TypeError is
none of the documented error classes. -/
theorem c10_uploadInput_null_match (c : Client) (net : Net) (s : String)
    (h : regexChunks s.data = []) :
    c.uploadInput net s = (.error .typeError, []) ∧
    regexChunks ("".data) = [] ∧
    (∀ m, Err.typeError ≠ Err.sdkErr m) ∧
    (∀ b, Err.typeError ≠ Err.serverError b) ∧
    (∀ m, Err.typeError ≠ Err.jsError m) := by
  refine ⟨?_, rfl, by intro m; simp, by intro b; simp, by intro m; simp⟩
  unfold Client.uploadInput fromHexString
  rw [h]

theorem jsEndsWith_iff (s t : String) : jsEndsWith s t = true ↔ t.data <:+ s.data := by
  unfold jsEndsWith
  exact decide_eq_true_iff

theorem jsEndsWith_false_iff (s t : String) : jsEndsWith s t = false ↔ ¬ t.data <:+ s.data := by
  unfold jsEndsWith
  exact decide_eq_false_iff_not

theorem data_append_str (s t : String) : (s ++ t).data = s.data ++ t.data := rfl

/-- C9: both constructors strip exactly one trailing slash: the client URL
is `normalizeUrl` of the input, `normalizeUrl` leaves a slash-free URL alone
and removes a single trailing slash, and for inputs with at most one
trailing slash the result does not end in a slash; the two example URLs
yield the same base. -/
theorem c9_url_normalization :
    (∀ (env : Env) (url key ver : String),
        (Client.fromParts env url key ver).url = normalizeUrl url) ∧
    (∀ (env : Env) (ver u k : String), getURL env = .ok u → u ≠ "" →
        getKey env = .ok k → k ≠ "" →
        Client.fromEnv env ver = .ok ⟨normalizeUrl u, constructReqClient env k ver⟩) ∧
    (∀ u : String, jsEndsWith u "/" = false → normalizeUrl u = u) ∧
    (∀ u : String, jsEndsWith u "/" = false → normalizeUrl (u ++ "/") = u) ∧
    (∀ u : String, jsEndsWith u "//" = false →
        jsEndsWith (normalizeUrl u) "/" = false) ∧
    (Client.fromParts emptyEnv "https://api.example/" "k" "v").url
      = (Client.fromParts emptyEnv "https://api.example" "k" "v").url := by
  refine ⟨fun env url key ver => rfl, ?_, ?_, ?_, ?_, by decide⟩
  · intro env ver u k hu hune hk hkne
    unfold Client.fromEnv
    rw [hu]
    dsimp only
    rw [if_neg hune, hk]
    dsimp only
    rw [if_neg hkne]
  · intro u h
    unfold normalizeUrl
    rw [if_neg (by simp [h])]
  · intro u h
    unfold normalizeUrl
    have hends : jsEndsWith (u ++ "/") "/" = true := by
      rw [jsEndsWith_iff, data_append_str]
      exact List.suffix_append u.data "/".data
    rw [if_pos hends]
    unfold jsSliceDropLast
    rw [data_append_str]
    rw [show ("/" : String).data = ['/'] from rfl, List.dropLast_concat]
  · intro u h
    rw [jsEndsWith_false_iff] at h
    rw [show ("//" : String).data = ['/', '/'] from rfl] at h
    unfold normalizeUrl
    cases hone : jsEndsWith u "/" with
    | false =>
      rw [if_neg (by simp)]
      exact hone
    | true =>
      rw [if_pos rfl]
      rw [jsEndsWith_iff] at hone
      obtain ⟨t, ht⟩ := hone
      rw [show ("/" : String).data = ['/'] from rfl] at ht
      rw [jsEndsWith_false_iff]
      rw [show (jsSliceDropLast u).data = u.data.dropLast from rfl]
      rw [show ("/" : String).data = ['/'] from rfl]
      rw [← ht, List.dropLast_concat]
      intro hcon
      obtain ⟨t2, ht2⟩ := hcon
      apply h
      refine ⟨t2, ?_⟩
      rw [← ht, ← ht2]
      simp

/-! ## Hex decoding lemmas: the source regex path equals pairwise decoding -/

theorem hexDigit_toNat {c : Char} (h : isHexDigitChar c = true) :
    (48 ≤ c.toNat ∧ c.toNat ≤ 57) ∨ (97 ≤ c.toNat ∧ c.toNat ≤ 102) ∨
      (65 ≤ c.toNat ∧ c.toNat ≤ 70) := by
  unfold isHexDigitChar digitVal at h
  dsimp only at h
  split_ifs at h with h1 h2 h3
  · exact Or.inl ⟨h1.1, h1.2.1⟩
  · exact Or.inr (Or.inl ⟨h2.1, by omega⟩)
  · exact Or.inr (Or.inr ⟨h3.1, by omega⟩)
  · simp at h

theorem hexVal_lt {c : Char} (h : isHexDigitChar c = true) : hexVal c < 16 := by
  unfold isHexDigitChar at h
  unfold hexVal
  unfold digitVal at h ⊢
  dsimp only at h ⊢
  split_ifs at h ⊢ with h1 h2 h3
  · simp only [Option.getD_some]
    omega
  · simp only [Option.getD_some]
    omega
  · simp only [Option.getD_some]
    omega
  · simp at h

theorem hexDigit_not_lineTerm {c : Char} (h : isHexDigitChar c = true) :
    isLineTerm c = false := by
  have h' := hexDigit_toNat h
  unfold isLineTerm
  simp only [Bool.or_eq_false_iff, beq_eq_false_iff_ne, ne_eq]
  omega

theorem regexChunks_of_hex : ∀ l : List Char, l.all isHexDigitChar = true →
    l.length % 2 = 0 → regexChunks l = hexPairChunks l
  | [], _, _ => rfl
  | [a], _, h2 => by simp at h2
  | a :: b :: t, h1, h2 => by
    simp only [List.all_cons, Bool.and_eq_true] at h1
    obtain ⟨ha, hb, ht⟩ := h1
    have hca := hexDigit_not_lineTerm ha
    have hcb := hexDigit_not_lineTerm hb
    have hrec := regexChunks_of_hex t ht (by simp only [List.length_cons] at h2; omega)
    simp [regexChunks, hexPairChunks, hca, hcb, hrec]

theorem parse_hex_pair {a b : Char} (ha : isHexDigitChar a = true)
    (hb : isHexDigitChar b = true) :
    toUint8 (parseIntJS 16 (String.mk [a, b])) = 16 * hexVal a + hexVal b := by
  have hna := hexDigit_toNat ha
  have hnb := hexDigit_toNat hb
  have hva := hexVal_lt ha
  have hvb := hexVal_lt hb
  have hwa : jsWhitespaceChar a = false := by
    unfold jsWhitespaceChar
    simp only [Bool.or_eq_false_iff, beq_eq_false_iff_ne, ne_eq]
    omega
  have hsign : (a.toNat == 45 || a.toNat == 43) = false := by
    simp only [Bool.or_eq_false_iff, beq_eq_false_iff_ne, ne_eq]
    omega
  have ha45 : (a.toNat == 45) = false := by
    simp only [beq_eq_false_iff_ne, ne_eq]
    omega
  have hpre : (a.toNat == 48 && (b.toNat == 120 || b.toNat == 88)) = false := by
    have h120 : (b.toNat == 120) = false := by
      simp only [beq_eq_false_iff_ne, ne_eq]
      omega
    have h88 : (b.toNat == 88) = false := by
      simp only [beq_eq_false_iff_ne, ne_eq]
      omega
    rw [h120, h88]
    simp
  have hda : (digitVal 16 a).isSome = true := ha
  have hdb : (digitVal 16 b).isSome = true := hb
  unfold parseIntJS
  rw [show (String.mk [a, b]).data = [a, b] from rfl]
  rw [List.dropWhile_cons_of_neg (by simp [hwa])]
  dsimp only
  rw [hsign, ha45]
  simp only [Bool.false_eq_true, if_false]
  simp only [if_true]
  rw [hpre]
  simp only [Bool.false_eq_true, if_false]
  rw [List.takeWhile_cons_of_pos (by simpa using hda),
      List.takeWhile_cons_of_pos (by simpa using hdb)]
  simp only [List.takeWhile_nil, List.isEmpty_cons, Bool.false_eq_true, if_false]
  unfold toUint8
  simp only [List.foldl_cons, List.foldl_nil, one_mul]
  rw [show ((digitVal 16 a).getD 0) = hexVal a from rfl,
      show ((digitVal 16 b).getD 0) = hexVal b from rfl]
  simp only [Int.ofNat_eq_coe]
  omega

theorem map_parse_hexPairChunks : ∀ l : List Char, l.all isHexDigitChar = true →
    (hexPairChunks l).map (fun ch => toUint8 (parseIntJS 16 (String.mk ch)))
      = hexPairBytes l
  | [], _ => rfl
  | [a], _ => rfl
  | a :: b :: t, h => by
    simp only [List.all_cons, Bool.and_eq_true] at h
    have hrec := map_parse_hexPairChunks t h.2.2
    simp [hexPairChunks, hexPairBytes, hrec, parse_hex_pair h.1 h.2.1]

theorem fromHexString_of_hex (s : String) (hs : isEvenHexStr s = true) :
    fromHexString s = some (hexPairBytes s.data) := by
  unfold isEvenHexStr at hs
  simp only [Bool.and_eq_true, Bool.not_eq_true'] at hs
  obtain ⟨⟨hne, hlen⟩, hall'⟩ := hs
  have hlen' : s.data.length % 2 = 0 := by simpa using hlen
  unfold fromHexString
  rw [regexChunks_of_hex s.data hall' hlen']
  obtain ⟨a, b, t, hd⟩ : ∃ a b t, s.data = a :: b :: t := by
    cases hd : s.data with
    | nil =>
      rw [hd] at hne
      simp at hne
    | cons a t1 =>
      cases ht1 : t1 with
      | nil =>
        rw [hd, ht1] at hlen'
        simp at hlen'
      | cons b t2 =>
        exact ⟨a, b, t2, rfl⟩
  rw [hd] at hall' ⊢
  have hcons : hexPairChunks (a :: b :: t) = [a, b] :: hexPairChunks t := rfl
  rw [hcons]
  dsimp only
  rw [← hcons, map_parse_hexPairChunks (a :: b :: t) hall']

/-- C1: for a (non-empty, even-length) hex string, `uploadInput` decodes two
hex characters per byte, drops the first decoded byte, PUTs exactly the
remaining bytes in order to the presigned URL from the `inputs` upload
route, and returns the route's UUID; `"00ff00"` decodes to `[0x00, 0xff,
0x00]` and uploads `[0xff, 0x00]`. -/
theorem c1_uploadInput_hex (c : Client) (net : Net) (s : String) (u : UploadRes)
    (hs : isEvenHexStr s = true)
    (h1 : net (getReq (c.url ++ "/" ++ "inputs" ++ "/upload")) = ⟨200, .upload u⟩)
    (h2 : 200 ≤ (net (putReq u.url ((hexPairBytes s.data).drop 1))).status)
    (h3 : (net (putReq u.url ((hexPairBytes s.data).drop 1))).status < 300) :
    fromHexString s = some (hexPairBytes s.data) ∧
    c.uploadInput net s
      = (.ok u.uuid, [getReq (c.url ++ "/" ++ "inputs" ++ "/upload"),
                      putReq u.url ((hexPairBytes s.data).drop 1)]) ∧
    hexPairBytes ("00ff00".data) = [0x00, 0xff, 0x00] ∧
    (hexPairBytes ("00ff00".data)).drop 1 = [0xff, 0x00] := by
  have hfrom := fromHexString_of_hex s hs
  refine ⟨hfrom, ?_, by decide, by decide⟩
  unfold Client.uploadInput
  rw [hfrom]
  dsimp only
  have hg : c.getUploadUrl net "inputs"
      = (.ok u, [getReq (c.url ++ "/" ++ "inputs" ++ "/upload")]) := by
    unfold Client.getUploadUrl axiosDefault
    dsimp only
    rw [h1]
    simp
  rw [hg]
  unfold Client.putData axiosDefault
  dsimp only
  rw [if_neg (by omega)]
  rfl

theorem c1_uploadInput_hex_witness :
    isEvenHexStr "00ff00" = true ∧
    clientW.uploadInput netC1 "00ff00"
      = (.ok "uuid-42", [getReq ("https://api" ++ "/" ++ "inputs" ++ "/upload"),
                         putReq "https://put-input" [255, 0]]) := by
  have h := c1_uploadInput_hex clientW netC1 "00ff00" ⟨"https://put-input", "uuid-42"⟩
      (by decide) (by decide) (by decide) (by decide)
  refine ⟨by decide, ?_⟩
  have h2 := h.2.1
  rw [show (hexPairBytes ("00ff00".data)).drop 1 = [255, 0] from by decide] at h2
  exact h2

theorem c5_image_upload_amended_witness :
    clientW.uploadImg netC5 "img-exists" [1, 2]
      = (.ok true, [getReq ("https://api" ++ "/images/upload/" ++ "img-exists")]) ∧
    clientW.uploadImg netC5 "img-new" [1, 2]
      = (.error .typeError, [getReq ("https://api" ++ "/images/upload/" ++ "img-new")]) ∧
    clientW.getImageUploadUrl netBad "img-x"
      = (.error (.axiosError (.text "boom")),
         [getReq ("https://api" ++ "/images/upload/" ++ "img-x")]) := by
  refine ⟨?_, ?_, ?_⟩
  · exact ((c5_image_upload_amended clientW netC5 "img-exists" [1, 2]).1 (by decide)).2
  · exact ((c5_image_upload_amended clientW netC5 "img-new" [1, 2]).2.1 (by decide)).2
  · exact (c5_image_upload_amended clientW netBad "img-x" []).2.2.2 500 (.text "boom")
      (by decide) (by decide)

theorem c6_receipt_download_amended_witness :
    clientW.receiptDownload netC6 sidW
      = (.ok [7, 8, 9], [getReq ("https://api" ++ "/receipts/" ++ "sess-1"),
                         getReq "https://dl"]) ∧
    clientW.receiptDownload netC6b sidW
      = (.error (.sdkErr "ReceiptNotFound"),
         [getReq ("https://api" ++ "/receipts/" ++ "sess-1")]) := by
  constructor
  · exact (c6_receipt_download_amended clientW netC6 sidW).2.2.1 200 200 ⟨"https://dl"⟩
      [7, 8, 9] (by decide) (by decide) (by decide) (by decide) (by decide) (by decide)
  · exact (c6_receipt_download_amended clientW netC6b sidW).1 (by decide)

theorem c7_status_amended_witness :
    sidW.status clientW netC7
      = (.ok jW, [getReq ("https://api" ++ "/sessions/status/" ++ "sess-1")]) ∧
    kidW.status clientW netC7
      = (.error (.axiosError (.text "boom")),
         [getReq ("https://api" ++ "/snark/status/" ++ "snark-1")]) := by
  constructor
  · exact (c7_status_amended clientW netC7 sidW kidW).2.2.1 jW (by decide)
  · exact (c7_status_amended clientW netC7 sidW kidW).2.2.2.1 500 (.text "boom")
      (by decide) (by decide)

theorem c8_createSession_amended_witness :
    clientW.createSession netC8 "img" "inp" ["a1"] false
      = (.ok ⟨"sess-99"⟩, [⟨.post, "https://api" ++ "/sessions/create",
          .sessionCreate ⟨"img", "inp", ["a1"], false, Option.none⟩⟩]) :=
  (c8_createSession_amended clientW netC8 "img" "inp" ["a1"] false).2.2 200 ⟨"sess-99"⟩
    (by decide) (by decide) (by decide)

theorem c9_url_normalization_witness :
    normalizeUrl ("https://api.example" ++ "/") = "https://api.example" ∧
    normalizeUrl "https://api.example" = "https://api.example" ∧
    jsEndsWith (normalizeUrl "https://api.example/") "/" = false := by
  refine ⟨?_, ?_, ?_⟩
  · exact c9_url_normalization.2.2.2.1 "https://api.example" (by decide)
  · exact c9_url_normalization.2.2.1 "https://api.example" (by decide)
  · exact c9_url_normalization.2.2.2.2.1 "https://api.example/" (by decide)

theorem c10_uploadInput_null_match_witness :
    clientW.uploadInput netC1 "" = (.error .typeError, []) :=
  (c10_uploadInput_null_match clientW netC1 "" rfl).1

end Bonsai
